import Mathlib

/-!
Verification of the LES (light client) subprotocol session layer, a shallow
embedding of src/src/les/index.js. The session class is modelled as an
explicit state record; each method becomes a function from the pre-state to
an Outcome holding the post-state, the events emitted, the messages handed to
the transport, and the error thrown, if any (a JavaScript method may mutate
the object and then throw, so the post-state is reported even on error).
The external RLP codec is a parameter: `dec` decodes raw bytes into a
structured payload (`none` models a decode failure, which in the source is a
thrown exception), `enc` encodes a payload into bytes.
-/

namespace DevP2P

/-- A decoded structured payload: a list of byte strings. This is the shape
the status handshake consumes (six indexed fields); other messages carry it
opaquely. Bytes are Nats. -/
abbrev Payload := List (List Nat)

/- The MESSAGE_CODES table of src/src/les/index.js. -/
namespace MESSAGE_CODES

def STATUS : Nat := 0x00
def ANNOUNCE : Nat := 0x01
def GET_BLOCK_HEADERS : Nat := 0x02
def BLOCK_HEADERS : Nat := 0x03
def GET_BLOCK_BODIES : Nat := 0x04
def BLOCK_BODIES : Nat := 0x05
def GET_RECEIPTS : Nat := 0x06
def RECEIPTS : Nat := 0x07
def GET_PROOFS : Nat := 0x08
def PROOFS : Nat := 0x09
def GET_CONTRACT_CODES : Nat := 0x0a
def CONTRACT_CODES : Nat := 0x0b
def GET_HEADER_PROOFS : Nat := 0x0d
def HEADER_PROOFS : Nat := 0x0e
def SEND_TX : Nat := 0x0c
def GET_PROOFS_V2 : Nat := 0x0f
def PROOFS_V2 : Nat := 0x10
def GET_HELPER_TRIE_PROOFS : Nat := 0x11
def HELPER_TRIE_PROOFS : Nat := 0x12
def SEND_TX_V2 : Nat := 0x13
def GET_TX_STATUS : Nat := 0x14
def TX_STATUS : Nat := 0x15

end MESSAGE_CODES

/-- The LES/1 tier of non-status codes: the first group of fall-through
cases in the switch of `_handleMessage` and `sendMessage`. -/
def v1Codes : List Nat :=
  [MESSAGE_CODES.ANNOUNCE, MESSAGE_CODES.GET_BLOCK_HEADERS,
   MESSAGE_CODES.BLOCK_HEADERS, MESSAGE_CODES.GET_BLOCK_BODIES,
   MESSAGE_CODES.BLOCK_BODIES, MESSAGE_CODES.GET_RECEIPTS,
   MESSAGE_CODES.RECEIPTS, MESSAGE_CODES.GET_PROOFS, MESSAGE_CODES.PROOFS,
   MESSAGE_CODES.GET_CONTRACT_CODES, MESSAGE_CODES.CONTRACT_CODES,
   MESSAGE_CODES.GET_HEADER_PROOFS, MESSAGE_CODES.HEADER_PROOFS,
   MESSAGE_CODES.SEND_TX]

/-- The LES/2 tier of codes: the second group of fall-through cases in the
switch of `_handleMessage` and `sendMessage`. -/
def v2Codes : List Nat :=
  [MESSAGE_CODES.GET_PROOFS_V2, MESSAGE_CODES.PROOFS_V2,
   MESSAGE_CODES.GET_HELPER_TRIE_PROOFS, MESSAGE_CODES.HELPER_TRIE_PROOFS,
   MESSAGE_CODES.SEND_TX_V2, MESSAGE_CODES.GET_TX_STATUS,
   MESSAGE_CODES.TX_STATUS]

/-- A protocol descriptor: the static `les` / `les2` objects
(name, version, length). -/
structure Descriptor where
  name : String
  version : Nat
  length : Nat
deriving DecidableEq

/-- `LES.les = { name: 'les', version: 1, length: 15 }`. -/
def les : Descriptor := ⟨"les", 1, 15⟩

/-- `LES.les2 = { name: 'les', version: 2, length: 21 }`. -/
def les2 : Descriptor := ⟨"les", 2, 21⟩

/-- Observable events the session emits to the application layer. -/
inductive Event
  | status (networkId headTd headHash headNum genesisHash : List Nat)
  | message (code : Nat) (payload : Payload)
deriving DecidableEq

/-- The errors the LES methods can throw, one constructor per distinct
throw site (the source throws Error objects with these messages). -/
inductive LESError
  | decodeError
  | uncontrolledStatus
  | protocolVersionMismatch
  | networkIdMismatch
  | genesisMismatch
  | statusThroughSendStatus
  | codeNotAllowed (code version : Nat)
  | unknownCode (code : Nat)
deriving DecidableEq

/-- The mutable state of an LES session object: `_version`, `_status`,
`_peerStatus`, and whether the `_statusTimeoutId` deadline is still armed. -/
structure LES where
  version : Nat
  status : Option Payload
  peerStatus : Option Payload
  timeoutArmed : Bool
deriving DecidableEq

/-- The constructor: statuses null, the 5-second deadline armed. -/
def LES.init (version : Nat) : LES := ⟨version, none, none, true⟩

/-- What one method call does: the post-state, the events emitted, the
(code, bytes) pairs handed to the transport `_send`, and the thrown error. -/
structure Outcome where
  state : LES
  events : List Event
  sent : List (Nat × List Nat)
  err : Option LESError
deriving DecidableEq

/-- Modelled from the spec: `int2buffer` lives in src/src/util.js, which is
absent from the sample; the spec says numeric fields are variable-length
big-endian byte strings, minimally encoded with no leading zero byte.
Structural fuel recursion (the value itself bounds the number of digits). -/
def int2bufferAux : Nat → Nat → List Nat
  | 0, _ => []
  | _, 0 => []
  | fuel + 1, v + 1 => int2bufferAux fuel ((v + 1) / 256) ++ [(v + 1) % 256]

/-- Modelled from the spec: minimal big-endian byte encoding of a number. -/
def int2buffer (v : Nat) : List Nat := int2bufferAux v v

/-- `_handleStatus`: if either status is null, do nothing; otherwise clear
the deadline, then assert equality of fields 0 (protocol version),
1 (network id) and 5 (genesis) between local and peer records, and on
success emit the `status` event built from the peer record. The assertions
compare optional values, since indexing past the end of a record gives
undefined in the source and undefined only equals undefined; the event is
built from records holding all six fields, so its fields are read with a
default that the six-field record shape never reaches. -/
def LES.handleStatus (s : LES) : Outcome :=
  match s.status, s.peerStatus with
  | some st, some pst =>
      let s1 : LES := { s with timeoutArmed := false }
      if st[0]? ≠ pst[0]? then ⟨s1, [], [], some .protocolVersionMismatch⟩
      else if st[1]? ≠ pst[1]? then ⟨s1, [], [], some .networkIdMismatch⟩
      else if st[5]? ≠ pst[5]? then ⟨s1, [], [], some .genesisMismatch⟩
      else ⟨s1,
            [Event.status (pst.getD 1 []) (pst.getD 2 []) (pst.getD 3 [])
              (pst.getD 4 []) (pst.getD 5 [])], [], none⟩
  | _, _ => ⟨s, [], [], none⟩

/-- `_handleMessage (code, data)`: decode the raw payload first; a STATUS
code is guarded by the uncontrolled-status assertion, stored, and routed to
`_handleStatus`; a tier-1 code is surfaced as a `message` event when the
session version is at least `les.version`, a tier-2 code when it is at least
`les2.version`, and otherwise (including unknown codes) the message is
silently dropped. -/
def LES.handleMessage (dec : List Nat → Option Payload) (s : LES)
    (code : Nat) (data : List Nat) : Outcome :=
  match dec data with
  | none => ⟨s, [], [], some .decodeError⟩
  | some payload =>
    if code = MESSAGE_CODES.STATUS then
      if s.peerStatus ≠ none then ⟨s, [], [], some .uncontrolledStatus⟩
      else LES.handleStatus { s with peerStatus := some payload }
    else if v1Codes.contains code then
      if s.version ≥ les.version then ⟨s, [Event.message code payload], [], none⟩
      else ⟨s, [], [], none⟩
    else if v2Codes.contains code then
      if s.version ≥ les2.version then ⟨s, [Event.message code payload], [], none⟩
      else ⟨s, [], [], none⟩
    else ⟨s, [], [], none⟩

/-- The argument object of `sendStatus`. -/
structure StatusInput where
  networkId : Nat
  headTd : List Nat
  headHash : List Nat
  headNum : List Nat
  genesisHash : List Nat
deriving DecidableEq

/-- `sendStatus (status)`: if a local status is already stored, return at
once; otherwise build the six-field record, store it, transmit it as a
STATUS message, then run `_handleStatus`. -/
def LES.sendStatus (enc : Payload → List Nat) (s : LES) (st : StatusInput) :
    Outcome :=
  if s.status ≠ none then ⟨s, [], [], none⟩
  else
    let record : Payload :=
      [int2buffer s.version, int2buffer st.networkId, st.headTd, st.headHash,
       st.headNum, st.genesisHash]
    let out := LES.handleStatus { s with status := some record }
    ⟨out.state, out.events, (MESSAGE_CODES.STATUS, enc record) :: out.sent,
     out.err⟩

/-- `sendMessage (code, payload)`: STATUS is rejected toward `sendStatus`;
a tier-1 code needs version at least `les.version`, a tier-2 code version at
least `les2.version`, else a not-allowed error; a code in neither tier is an
unknown-code error; on success the encoded payload goes to the transport. -/
def LES.sendMessage (enc : Payload → List Nat) (s : LES) (code : Nat)
    (payload : Payload) : Outcome :=
  if code = MESSAGE_CODES.STATUS then ⟨s, [], [], some .statusThroughSendStatus⟩
  else if v1Codes.contains code then
    if s.version ≥ les.version then ⟨s, [], [(code, enc payload)], none⟩
    else ⟨s, [], [], some (.codeNotAllowed code s.version)⟩
  else if v2Codes.contains code then
    if s.version ≥ les2.version then ⟨s, [], [(code, enc payload)], none⟩
    else ⟨s, [], [], some (.codeNotAllowed code s.version)⟩
  else ⟨s, [], [], some (.unknownCode code)⟩

/-- The minimum protocol version at which a message code is legal: tier 1
(STATUS and the LES/1 block) from version `les.version`, tier 2 from
version `les2.version`, `none` for a code in no tier. -/
def minVersion (code : Nat) : Option Nat :=
  if code = MESSAGE_CODES.STATUS then some les.version
  else if v1Codes.contains code then some les.version
  else if v2Codes.contains code then some les2.version
  else none

/-- The pure code-space membership check of the spec, read off the tier
structure of the source switches: a code is allowed at a version iff it has
a minimum version not above it. -/
def isCodeAllowed (version code : Nat) : Bool :=
  match minVersion code with
  | some m => decide (m ≤ version)
  | none => false

end DevP2P

namespace DevP2P

/-- Claim C1: when both the local and peer status records are present, the
negotiation check compares fields 0 (protocol version), 1 (network id) and
5 (genesis); if any differs, it throws an error naming a mismatched field,
emits no event (in particular no status event, so the session does not
become negotiated). -/
theorem negotiation_mismatch_fails (s : LES) (st pst : Payload)
    (hs : s.status = some st) (hp : s.peerStatus = some pst)
    (hmis : st[0]? ≠ pst[0]? ∨ st[1]? ≠ pst[1]? ∨ st[5]? ≠ pst[5]?) :
    s.handleStatus.events = [] ∧
    ∃ e, s.handleStatus.err = some e ∧
      ((e = LESError.protocolVersionMismatch ∧ st[0]? ≠ pst[0]?) ∨
       (e = LESError.networkIdMismatch ∧ st[1]? ≠ pst[1]?) ∨
       (e = LESError.genesisMismatch ∧ st[5]? ≠ pst[5]?)) := by
  simp only [LES.handleStatus, hs, hp]
  split_ifs with h0 h1 h5
  · exact ⟨rfl, .protocolVersionMismatch, rfl, Or.inl ⟨rfl, h0⟩⟩
  · exact ⟨rfl, .networkIdMismatch, rfl, Or.inr (Or.inl ⟨rfl, h1⟩)⟩
  · exact ⟨rfl, .genesisMismatch, rfl, Or.inr (Or.inr ⟨rfl, h5⟩)⟩
  · rcases hmis with h | h | h <;> contradiction

/-- Claim C1 witness. -/
theorem negotiation_mismatch_fails_witness :
    (LES.handleStatus ⟨1, some [[1], [1], [], [], [], [5]],
        some [[2], [1], [], [], [], [5]], true⟩).events = [] ∧
    ∃ e, (LES.handleStatus ⟨1, some [[1], [1], [], [], [], [5]],
        some [[2], [1], [], [], [], [5]], true⟩).err = some e ∧
      ((e = LESError.protocolVersionMismatch ∧
          ([[1], [1], [], [], [], [5]] : Payload)[0]? ≠
            ([[2], [1], [], [], [], [5]] : Payload)[0]?) ∨
       (e = LESError.networkIdMismatch ∧
          ([[1], [1], [], [], [], [5]] : Payload)[1]? ≠
            ([[2], [1], [], [], [], [5]] : Payload)[1]?) ∨
       (e = LESError.genesisMismatch ∧
          ([[1], [1], [], [], [], [5]] : Payload)[5]? ≠
            ([[2], [1], [], [], [], [5]] : Payload)[5]?)) :=
  negotiation_mismatch_fails ⟨1, some [[1], [1], [], [], [], [5]],
      some [[2], [1], [], [], [], [5]], true⟩ _ _ rfl rfl (Or.inl (by decide))

end DevP2P

namespace DevP2P

/-- Claim C2: a second incoming STATUS message (with a payload that
decodes) on a session whose peer status is already stored fails with the
uncontrolled-status error and leaves the whole session state, in particular
the stored peer status, unchanged. -/
theorem second_status_rejected (dec : List Nat → Option Payload) (s : LES)
    (data : List Nat) (p q : Payload) (hp : s.peerStatus = some p)
    (hd : dec data = some q) :
    LES.handleMessage dec s MESSAGE_CODES.STATUS data =
      ⟨s, [], [], some .uncontrolledStatus⟩ := by
  simp [LES.handleMessage, hd, hp]

/-- Claim C2 witness. -/
theorem second_status_rejected_witness :
    LES.handleMessage (fun _ => some [[2]]) ⟨1, none, some [[1]], true⟩
        MESSAGE_CODES.STATUS [] =
      ⟨⟨1, none, some [[1]], true⟩, [], [], some .uncontrolledStatus⟩ :=
  second_status_rejected (fun _ => some [[2]]) ⟨1, none, some [[1]], true⟩
    [] [[1]] [[2]] rfl rfl

/-- Claim C3: once a local status is stored, a further call to sendStatus
returns at once: same state, no event, nothing transmitted, no error. -/
theorem sendStatus_idempotent (enc : Payload → List Nat) (s : LES)
    (p : Payload) (st : StatusInput) (h : s.status = some p) :
    LES.sendStatus enc s st = ⟨s, [], [], none⟩ := by
  simp [LES.sendStatus, h]

/-- Claim C3 witness. -/
theorem sendStatus_idempotent_witness :
    LES.sendStatus (fun _ => []) ⟨1, some [[1]], none, true⟩ ⟨0, [], [], [], []⟩ =
      ⟨⟨1, some [[1]], none, true⟩, [], [], none⟩ :=
  sendStatus_idempotent (fun _ => []) ⟨1, some [[1]], none, true⟩ [[1]]
    ⟨0, [], [], [], []⟩ rfl

/-- Claim C4 counterexample: a session with both statuses present whose
records differ in field 0 fails the comparison, yet the deadline is
disarmed (clearTimeout runs before the field assertions), contradicting the
claim that the deadline remains armed when the comparison fails. -/
theorem deadline_disarm_cex :
    (LES.handleStatus ⟨1, some [[1], [1], [], [], [], [5]],
        some [[2], [1], [], [], [], [5]], true⟩).err =
      some LESError.protocolVersionMismatch ∧
    (LES.handleStatus ⟨1, some [[1], [1], [], [], [], [5]],
        some [[2], [1], [], [], [], [5]], true⟩).state.timeoutArmed = false := by
  decide

/-- Claim C4 (amended): the deadline is disarmed whenever the negotiation
check runs with both status records present, before and regardless of the
field comparison; while either record is absent the check leaves the state,
deadline included, unchanged. -/
theorem deadline_disarmed_when_both_present (s : LES) :
    (∀ st pst, s.status = some st → s.peerStatus = some pst →
      s.handleStatus.state.timeoutArmed = false) ∧
    ((s.status = none ∨ s.peerStatus = none) →
      s.handleStatus = ⟨s, [], [], none⟩) := by
  constructor
  · intro st pst hs hp
    simp only [LES.handleStatus, hs, hp]
    split_ifs <;> rfl
  · intro h
    rcases h with h | h <;>
      · unfold LES.handleStatus
        rcases hs : s.status with _ | st <;> rcases hp : s.peerStatus with _ | pst <;>
          simp_all

/-- Claim C4 (amended) witness. -/
theorem deadline_disarmed_when_both_present_witness :
    (LES.handleStatus ⟨1, some [[1], [1], [], [], [], [5]],
        some [[2], [1], [], [], [], [5]], true⟩).state.timeoutArmed = false :=
  (deadline_disarmed_when_both_present ⟨1, some [[1], [1], [], [], [], [5]],
      some [[2], [1], [], [], [], [5]], true⟩).1 _ _ rfl rfl

/-- Claim C10: the receive path decodes the raw payload first, so a payload
on which the codec fails makes the call fail with the decode error whatever
the code, even one disallowed or unknown at the session version, and the
state is unchanged. -/
theorem decode_error_first (dec : List Nat → Option Payload) (s : LES)
    (code : Nat) (data : List Nat) (hd : dec data = none) :
    LES.handleMessage dec s code data = ⟨s, [], [], some .decodeError⟩ := by
  simp [LES.handleMessage, hd]

/-- Claim C10 witness: an unknown code still yields the decode error. -/
theorem decode_error_first_witness :
    LES.handleMessage (fun _ => none) (LES.init 1) 0x99 [1, 2] =
      ⟨LES.init 1, [], [], some .decodeError⟩ :=
  decode_error_first (fun _ => none) (LES.init 1) 0x99 [1, 2] rfl

end DevP2P

namespace DevP2P

/-- Claim C8: when both statuses are present and fields 0, 1 and 5 agree,
negotiation succeeds: the deadline is disarmed and exactly one status event
fires, carrying the peer record's network id, head total difficulty, head
hash, head number and genesis hash. -/
theorem negotiation_success_emits_status (s : LES) (st pst : Payload)
    (hs : s.status = some st) (hp : s.peerStatus = some pst)
    (hlen : st.length = 6)
    (h0 : st[0]? = pst[0]?) (h1 : st[1]? = pst[1]?) (h5 : st[5]? = pst[5]?) :
    s.handleStatus = ⟨{ s with timeoutArmed := false },
      [Event.status (pst.getD 1 []) (pst.getD 2 []) (pst.getD 3 [])
        (pst.getD 4 []) (pst.getD 5 [])], [], none⟩ := by
  simp only [LES.handleStatus, hs, hp]
  split_ifs with a b c <;> first | rfl | simp_all

/-- Claim C8 witness. -/
theorem negotiation_success_emits_status_witness :
    LES.handleStatus ⟨2, some [[2], [1], [9], [8], [7], [5]],
        some [[2], [1], [3], [4], [6], [5]], true⟩ =
      ⟨⟨2, some [[2], [1], [9], [8], [7], [5]],
          some [[2], [1], [3], [4], [6], [5]], false⟩,
       [Event.status [1] [3] [4] [6] [5]], [], none⟩ :=
  negotiation_success_emits_status ⟨2, some [[2], [1], [9], [8], [7], [5]],
      some [[2], [1], [3], [4], [6], [5]], true⟩ _ _ rfl rfl rfl rfl rfl rfl

/-- Claim C5: sendMessage transmits (code, encoded payload) exactly when the
code is allowed at the session version and is not STATUS; STATUS is
rejected toward sendStatus, a code whose minimum version exceeds the
session's fails with the not-allowed error, a code in no tier fails with
the unknown-code error, and in every failure nothing is transmitted. -/
theorem sendMessage_spec (enc : Payload → List Nat) (s : LES) (code : Nat)
    (payload : Payload) :
    ((LES.sendMessage enc s code payload).err = none ↔
      (isCodeAllowed s.version code = true ∧ code ≠ MESSAGE_CODES.STATUS)) ∧
    ((LES.sendMessage enc s code payload).err = none →
      LES.sendMessage enc s code payload =
        ⟨s, [], [(code, enc payload)], none⟩) ∧
    (code = MESSAGE_CODES.STATUS →
      LES.sendMessage enc s code payload =
        ⟨s, [], [], some .statusThroughSendStatus⟩) ∧
    (∀ m, minVersion code = some m → s.version < m →
      code ≠ MESSAGE_CODES.STATUS →
      LES.sendMessage enc s code payload =
        ⟨s, [], [], some (.codeNotAllowed code s.version)⟩) ∧
    (minVersion code = none →
      LES.sendMessage enc s code payload =
        ⟨s, [], [], some (.unknownCode code)⟩) := by
  unfold LES.sendMessage isCodeAllowed minVersion les les2 MESSAGE_CODES.STATUS
  by_cases hS : code = 0 <;>
    by_cases h1 : v1Codes.contains code = true <;>
      by_cases h2 : v2Codes.contains code = true <;>
        by_cases hv1 : 1 ≤ s.version <;>
          by_cases hv2 : 2 ≤ s.version <;>
            simp_all
  rw [if_neg (by omega)]
  simp
  omega

end DevP2P

namespace DevP2P

/-- Claim C5 witness: GET_TX_STATUS at a version-2 session is transmitted. -/
theorem sendMessage_spec_witness :
    LES.sendMessage (fun _ => [7]) (LES.init 2) MESSAGE_CODES.GET_TX_STATUS [[1]] =
      ⟨LES.init 2, [], [(MESSAGE_CODES.GET_TX_STATUS, [7])], none⟩ :=
  (sendMessage_spec (fun _ => [7]) (LES.init 2) MESSAGE_CODES.GET_TX_STATUS
      [[1]]).2.1 (by decide)

/-- Claim C6: an inbound non-STATUS message whose payload decodes is
surfaced as exactly one message event carrying the code and decoded payload
when the code is allowed at the session version, and is silently dropped,
with no event, no error and an unchanged state, when it is not. -/
theorem handleMessage_dispatch (dec : List Nat → Option Payload) (s : LES)
    (code : Nat) (data : List Nat) (payload : Payload)
    (hd : dec data = some payload) (hns : code ≠ MESSAGE_CODES.STATUS) :
    (isCodeAllowed s.version code = true →
      LES.handleMessage dec s code data =
        ⟨s, [Event.message code payload], [], none⟩) ∧
    (isCodeAllowed s.version code = false →
      LES.handleMessage dec s code data = ⟨s, [], [], none⟩) := by
  unfold LES.handleMessage isCodeAllowed minVersion les les2 MESSAGE_CODES.STATUS
  unfold MESSAGE_CODES.STATUS at hns
  by_cases h1 : v1Codes.contains code = true <;>
    by_cases h2 : v2Codes.contains code = true <;>
      by_cases hv1 : 1 ≤ s.version <;>
        by_cases hv2 : 2 ≤ s.version <;>
          simp_all

/-- Claim C6 witness: GET_PROOFS_V2 at a version-1 session is dropped. -/
theorem handleMessage_dispatch_witness :
    LES.handleMessage (fun _ => some [[1]]) (LES.init 1)
        MESSAGE_CODES.GET_PROOFS_V2 [0] = ⟨LES.init 1, [], [], none⟩ :=
  (handleMessage_dispatch (fun _ => some [[1]]) (LES.init 1)
      MESSAGE_CODES.GET_PROOFS_V2 [0] [[1]] rfl (by decide)).2 (by decide)

/-- Characterization of the pure code-space check by tier membership. -/
theorem isCodeAllowed_iff (v code : Nat) :
    isCodeAllowed v code = true ↔
      ((code = MESSAGE_CODES.STATUS ∨ code ∈ v1Codes) ∧ 1 ≤ v) ∨
      (code ∈ v2Codes ∧ code ≠ MESSAGE_CODES.STATUS ∧ code ∉ v1Codes ∧ 2 ≤ v) := by
  unfold isCodeAllowed minVersion les les2
  by_cases hS : code = MESSAGE_CODES.STATUS <;>
    by_cases h1 : v1Codes.contains code = true <;>
      by_cases h2 : v2Codes.contains code = true <;>
        simp_all

/-- Claim C7: the code space is monotone across versions, both in the pure
membership check and in sendMessage itself: whatever is allowed (succeeds)
at version N is allowed (succeeds) at version N + 1. -/
theorem code_space_monotone :
    (∀ code v, isCodeAllowed v code = true → isCodeAllowed (v + 1) code = true) ∧
    (∀ (enc : Payload → List Nat) (s s1 : LES) (code : Nat) (payload : Payload),
      s1.version = s.version + 1 →
      (LES.sendMessage enc s code payload).err = none →
      (LES.sendMessage enc s1 code payload).err = none) := by
  constructor
  · intro code v h
    unfold isCodeAllowed at h ⊢
    rcases hm : minVersion code with _ | m <;> simp_all
    omega
  · intro enc s s1 code payload hv h
    unfold LES.sendMessage les les2 at h ⊢
    split_ifs at h ⊢ <;> simp_all

/-- Claim C7 witness. -/
theorem code_space_monotone_witness :
    isCodeAllowed 2 MESSAGE_CODES.ANNOUNCE = true :=
  code_space_monotone.1 MESSAGE_CODES.ANNOUNCE 1 (by decide)

/-- Claim C9 counterexample: TX_STATUS (0x15 = 21) is allowed at the
version of the les2 descriptor, yet it is not strictly below the declared
les2 length of 21, refuting the claim that every code legal at a
descriptor's version is strictly less than its codeSpaceSize. -/
theorem codeSpaceSize_cex :
    isCodeAllowed les2.version MESSAGE_CODES.TX_STATUS = true ∧
    ¬ MESSAGE_CODES.TX_STATUS < les2.length := by decide

/-- Claim C9 (amended): every code legal at the les descriptor's version 1
is strictly below its length 15; every code legal at the les2 descriptor's
version 2 is at most its length 21, and strictly below it except for
TX_STATUS, which equals it. -/
theorem codeSpaceSize_bounds :
    (∀ code, isCodeAllowed les.version code = true → code < les.length) ∧
    (∀ code, isCodeAllowed les2.version code = true → code ≤ les2.length) ∧
    (∀ code, isCodeAllowed les2.version code = true →
      code ≠ MESSAGE_CODES.TX_STATUS → code < les2.length) := by
  have hv1 : ∀ c ∈ v1Codes, c < 15 := by decide
  have hv2 : ∀ c ∈ v2Codes, c ≤ 21 ∧ (c ≠ MESSAGE_CODES.TX_STATUS → c < 21) := by
    decide
  refine ⟨?_, ?_, ?_⟩
  · intro code h
    rw [isCodeAllowed_iff] at h
    rcases h with ⟨hc | hc, _⟩ | ⟨_, _, _, hv⟩
    · rw [hc]; decide
    · exact hv1 code hc
    · exact absurd hv (by decide)
  · intro code h
    rw [isCodeAllowed_iff] at h
    show code ≤ 21
    rcases h with ⟨hc | hc, _⟩ | ⟨hc, _, _, _⟩
    · rw [hc]; decide
    · have := hv1 code hc; omega
    · exact (hv2 code hc).1
  · intro code h hne
    rw [isCodeAllowed_iff] at h
    show code < 21
    rcases h with ⟨hc | hc, _⟩ | ⟨hc, _, _, _⟩
    · rw [hc]; decide
    · have := hv1 code hc; omega
    · exact (hv2 code hc).2 hne

/-- Claim C9 (amended) witness. -/
theorem codeSpaceSize_bounds_witness :
    MESSAGE_CODES.ANNOUNCE < les.length :=
  codeSpaceSize_bounds.1 MESSAGE_CODES.ANNOUNCE (by decide)

end DevP2P
